import Mathlib

/-!
# eagle-common-service: server bootstrap, options and log writer

A shallow embedding of `server/server.go` and `logwriter/log_writer.go`.

* Go's `error` interface is `error := Option GoError`; `nil` is `none`.
* `errors.Join` and `errors.Is` of the Go standard library are modelled on a tree of
  errors (`GoError`).
* `StartServer` talks to the outside world (signal subscription, listener, callbacks,
  logger).  What the world answers is an input (`World`); what `StartServer` does to the
  world is recorded, in program order, in a trace of `Event`s.
* Go runs deferred calls after the operand of `return` has been evaluated and stored in
  the result; `StartServer` has an unnamed result, so the deferred calls cannot change it.
  The model keeps the result (`ret`) and the local variable `errs` apart for that reason.
-/

/-! ## Standard library: errors -/

/-- A non-nil Go error value: either some error of the application, identified by a
number, or the value built by `errors.Join` (`*joinError`, wrapping a list of errors). -/
inductive GoError where
  | base (id : Nat)
  | joinError (errs : List GoError)

/-- Go's `error` interface; `none` is `nil`. -/
abbrev error := Option GoError

mutual
/-- Equality of error values (`err == target`), structural. -/
def GoError.same : GoError → GoError → Bool
  | .base a, .base b => a == b
  | .joinError xs, .joinError ys => GoError.sameList xs ys
  | _, _ => false
/-- Pointwise equality of two lists of error values. -/
def GoError.sameList : List GoError → List GoError → Bool
  | [], [] => true
  | x :: xs, y :: ys => GoError.same x y && GoError.sameList xs ys
  | _, _ => false
end

namespace errors

/-- Go `errors.Join(errs...)`: nil values are discarded; the result is nil when every
value is nil, otherwise a `joinError` wrapping the non-nil values in order. -/
def Join (errs : List error) : error :=
  let kept := errs.filterMap id
  if kept.length = 0 then none else some (GoError.joinError kept)

mutual
/-- The loop of Go `errors.is`: `err` matches `target` when it equals it, or when it is a
`joinError` (it has `Unwrap() []error`) and one of the wrapped errors matches. -/
def isTree : GoError → GoError → Bool
  | .base a, t => GoError.same (.base a) t
  | .joinError es, t => GoError.same (.joinError es) t || isAny es t
/-- The `for _, err := range x.Unwrap()` loop of `errors.is`. -/
def isAny : List GoError → GoError → Bool
  | [], _ => false
  | e :: es, t => isTree e t || isAny es t
end

/-- Go `errors.Is(err, target)`: when either is nil the answer is `err == target`,
otherwise the tree of `err` is searched for `target`. -/
def Is : error → error → Bool
  | none, none => true
  | none, some _ => false
  | some _, none => false
  | some e, some t => isTree e t

end errors

/-! ## Standard library: time, context, net/http -/

/-- Go `time.Duration`: a count of nanoseconds. -/
abbrev Duration := Int

/-- Go `time.Second`. -/
def Second : Duration := 1000000000

/-- Identity of a `context.Context` value: one handed in by a caller, or the context
returned by `signal.NotifyContext(parent, os.Interrupt)`. -/
inductive CtxId where
  | caller (n : Nat)
  | notify (parent : CtxId)

/-- A context as a callee sees it: which context it is, and whether it is already done
(`ctx.Done()` closed) at the moment of the call. -/
structure Context where
  id : CtxId
  done : Bool

/-- A Go slice: `none` is the nil slice, `some xs` a non-nil slice with elements `xs`. -/
abbrev Slice (α : Type) := Option (List α)

/-- The `*mux.Router` handed to `StartServer`; only its identity matters here. -/
structure Router where
  id : Nat

/-- The fields of `http.Server` that `StartServer` sets. -/
structure HttpServer where
  Addr : String
  Handler : Router
  ReadTimeout : Duration
  WriteTimeout : Duration

/-! ## Package server -/

namespace server

/-- Go `defaultReadTimeout = 30 * time.Second`. -/
def defaultReadTimeout : Duration := 30 * Second

/-- Go `defaultWriteTimeout = 30 * time.Second`. -/
def defaultWriteTimeout : Duration := 30 * Second

/-- Go `defaultPort = "8080"`. -/
def defaultPort : String := "8080"

/-- Go `type ShutdownFunc func(ctx context.Context) error`.  `id` is the identity of the
function value (what `%v` prints in the warning); `call` is what it returns for the
context it is given. -/
structure ShutdownFunc where
  id : Nat
  call : Context → error

/-- Go `type serverConfig struct`.  -/
structure serverConfig where
  port : String
  readTimeout : Duration
  writeTimeout : Duration
  shutdownFunc : Slice ShutdownFunc

/-- Go `type Option func(config *serverConfig)`: a mutation of the configuration. -/
abbrev Option := serverConfig → serverConfig

/-- Go `SetPort`: sets the port for the server. -/
def SetPort (port : String) : server.Option :=
  fun c => { c with port := port }

/-- Go `SetReadTimeout`: sets the read timeout for the server. -/
def SetReadTimeout (timeout : Duration) : server.Option :=
  fun c => { c with readTimeout := timeout }

/-- Go `SetWriteTimeout`: sets the write timeout for the server. -/
def SetWriteTimeout (timeout : Duration) : server.Option :=
  fun c => { c with writeTimeout := timeout }

/-- Go `SetShutdownFuncs(fns ...ShutdownFunc)`: stores the slice `fns` itself. -/
def SetShutdownFuncs (fns : Slice ShutdownFunc) : server.Option :=
  fun c => { c with shutdownFunc := fns }

/-- What `StartServer` does to the outside world, in program order. -/
inductive Event where
  | notifyContext (parent : CtxId)
  | infof (msg : String)
  | listenAndServe (srv : HttpServer)
  | stop (released : Bool)
  | shutdown (ctx : Context)
  | call (f : Nat) (ctx : Context)
  | warnf (f : Nat) (err : GoError)

/-- Which case of the `select` in `StartServer` fires. -/
inductive SelectResult where
  | srvErr (e : error) (ctxDone : Bool)
  | ctxDone

/-- The answers of the outside world during one call of `StartServer`: the case of the
`select` that fires (for `srvErr`, the value `srv.ListenAndServe()` sent and whether the
signal context happened to be done as well), and what `srv.Shutdown(ctx)` returns. -/
structure World where
  select : SelectResult
  shutdownResult : error

/-- The variables of a running `StartServer`: the local `errs`, the state of the signal
context (`ctxDone`) and of the signal subscription, and the trace so far. -/
structure Frame where
  errs : error
  ctxDone : Bool
  subscribed : Bool
  trace : List Event

/-- The result of a call: the returned error, the value the local variable `errs` has
when the last deferred call is over, and the trace. -/
structure Outcome where
  ret : error
  errs : error
  trace : List Event

/-- The configuration `StartServer` starts from and applies the options to:
`config := &serverConfig{...}` followed by `for _, opt := range opts { opt(config) }`. -/
def applyOptions (opts : List server.Option) : serverConfig :=
  opts.foldl (fun config opt => opt config)
    { port := defaultPort, readTimeout := defaultReadTimeout,
      writeTimeout := defaultWriteTimeout, shutdownFunc := none }

/-- The `stop` function returned by `signal.NotifyContext`: cancels the context and
releases the signal subscription; a second call finds nothing left to release. -/
def stop (s : Frame) : Frame :=
  { s with ctxDone := true, subscribed := false,
           trace := s.trace ++ [Event.stop s.subscribed] }

/-- One iteration of `for _, f := range config.shutdownFunc` in the deferred function:
`f(c)` is called; a non-nil error is joined into `errs` and logged as a warning. -/
def shutdownStep (c : CtxId) (s : Frame) (f : ShutdownFunc) : Frame :=
  let ctx : Context := { id := c, done := s.ctxDone }
  let s1 := { s with trace := s.trace ++ [Event.call f.id ctx] }
  match f.call ctx with
  | some err =>
    { s1 with errs := errors.Join [s1.errs, some err],
              trace := s1.trace ++ [Event.warnf f.id err] }
  | none => s1

/-- The deferred `func(c context.Context) {...}(ctx)`: when `config.shutdownFunc` is not
nil, every function in it is called with `c`, in order. -/
def deferredShutdownFuncs (config : serverConfig) (c : CtxId) (s : Frame) : Frame :=
  match config.shutdownFunc with
  | none => s
  | some fs => fs.foldl (shutdownStep c) s

/-- The body of `StartServer` from `var errs error` to its `return` statements: the
value of the operand of `return`, and the frame at that moment. -/
def body (ctx0 : CtxId) (r : Router) (config : serverConfig) (w : World) :
    error × CtxId × Frame :=
  let ctx := CtxId.notify ctx0
  let s0 : Frame :=
    { errs := none, ctxDone := false, subscribed := true,
      trace := [Event.notifyContext ctx0] }
  let serverPort := ":" ++ config.port
  let s1 := { s0 with
    trace := s0.trace ++ [Event.infof ("starting http server on port " ++ serverPort)] }
  let srv : HttpServer :=
    { Addr := serverPort, Handler := r,
      ReadTimeout := config.readTimeout, WriteTimeout := config.writeTimeout }
  let s2 := { s1 with trace := s1.trace ++ [Event.listenAndServe srv] }
  match w.select with
  | .srvErr e d =>
    let s3 := { s2 with errs := e, ctxDone := d }
    (s3.errs, ctx, s3)
  | .ctxDone =>
    let s3 := stop { s2 with ctxDone := true }
    let s4 := { s3 with
      trace := s3.trace ++ [Event.shutdown { id := ctx, done := s3.ctxDone }] }
    let s5 :=
      match w.shutdownResult with
      | some e => { s4 with errs := errors.Join [s4.errs, some e] }
      | none => s4
    (s5.errs, ctx, s5)

/-- Go `StartServer(ctx, r, opts...)`.  The result is fixed by the `return` statement of
the body; then the deferred calls run, last registered first: the shutdown functions
(registered second), then `stop` (registered first). -/
def StartServer (ctx : CtxId) (r : Router) (opts : List server.Option) (w : World) :
    Outcome :=
  let config := applyOptions opts
  match body ctx r config w with
  | (ret, c, s) =>
    let s1 := deferredShutdownFuncs config c s
    let s2 := stop s1
    { ret := ret, errs := s2.errs, trace := s2.trace }

/-! ### Reading a trace -/

/-- The shutdown functions called, by identity, in the order of the calls. -/
def calls : List Event → List Nat
  | [] => []
  | Event.call f _ :: rest => f :: calls rest
  | _ :: rest => calls rest

/-- The contexts handed to `srv.Shutdown`, one for each request. -/
def shutdownContexts : List Event → List Context
  | [] => []
  | Event.shutdown ctx :: rest => ctx :: shutdownContexts rest
  | _ :: rest => shutdownContexts rest

/-- The calls of `stop`, in order; each `true` is a call that released the subscription. -/
def stops : List Event → List Bool
  | [] => []
  | Event.stop released :: rest => released :: stops rest
  | _ :: rest => stops rest

/-- Whether a call of `stop` comes before the first call of a shutdown function (true
also for a trace in which no shutdown function is called). -/
def stopBeforeFirstCall : List Event → Bool
  | [] => true
  | Event.stop _ :: _ => true
  | Event.call _ _ :: _ => false
  | _ :: rest => stopBeforeFirstCall rest

/-- The calls of `stop`, the requests of `Shutdown` and the calls of shutdown functions of
a trace, in the order in which they happen; every other event is dropped. -/
def lifecycle : List Event → List Event
  | [] => []
  | Event.stop released :: rest => Event.stop released :: lifecycle rest
  | Event.shutdown ctx :: rest => Event.shutdown ctx :: lifecycle rest
  | Event.call f ctx :: rest => Event.call f ctx :: lifecycle rest
  | _ :: rest => lifecycle rest

/-- The shutdown functions of a configuration as a list (none for the nil slice). -/
def registered (config : serverConfig) : List ShutdownFunc :=
  match config.shutdownFunc with
  | none => []
  | some fs => fs

/-- The events the loop over the shutdown functions `fs` adds to the trace when each is
called with `ctx`: a call, followed by a warning when the call returned an error. -/
def shutdownEvents (ctx : Context) : List ShutdownFunc → List Event
  | [] => []
  | f :: fs =>
    match f.call ctx with
    | some err => Event.call f.id ctx :: Event.warnf f.id err :: shutdownEvents ctx fs
    | none => Event.call f.id ctx :: shutdownEvents ctx fs

/-- The three events every call starts with: the signal subscription, the log line and
the start of the listener. -/
def startEvents (ctx : CtxId) (r : Router) (config : serverConfig) : List Event :=
  [Event.notifyContext ctx,
   Event.infof ("starting http server on port " ++ (":" ++ config.port)),
   Event.listenAndServe
     { Addr := ":" ++ config.port, Handler := r,
       ReadTimeout := config.readTimeout, WriteTimeout := config.writeTimeout }]

end server

/-! ### Describing a sequence of options -/

/-- One of the four options of the package, with its argument. -/
inductive OptionCall where
  | SetPort (port : String)
  | SetReadTimeout (timeout : Duration)
  | SetWriteTimeout (timeout : Duration)
  | SetShutdownFuncs (fns : Slice server.ShutdownFunc)

namespace OptionCall

/-- The option a call yields. -/
def option : OptionCall → server.Option
  | SetPort port => server.SetPort port
  | SetReadTimeout timeout => server.SetReadTimeout timeout
  | SetWriteTimeout timeout => server.SetWriteTimeout timeout
  | SetShutdownFuncs fns => server.SetShutdownFuncs fns

/-- The port an option call sets, if it sets the port. -/
def portArg : OptionCall → Option String
  | SetPort port => some port
  | _ => none

/-- The read timeout an option call sets, if it sets one. -/
def readTimeoutArg : OptionCall → Option Duration
  | SetReadTimeout timeout => some timeout
  | _ => none

/-- The write timeout an option call sets, if it sets one. -/
def writeTimeoutArg : OptionCall → Option Duration
  | SetWriteTimeout timeout => some timeout
  | _ => none

/-- The slice of shutdown functions an option call sets, if it sets one. -/
def shutdownFuncsArg : OptionCall → Option (Slice server.ShutdownFunc)
  | SetShutdownFuncs fns => some fns
  | _ => none

end OptionCall

/-! ## Package logwriter -/

namespace logrus

/-- Go `logrus.Level` (a `uint32`). -/
abbrev Level := Nat

/-- Go `logrus.PanicLevel`. -/
def PanicLevel : Level := 0
/-- Go `logrus.FatalLevel`. -/
def FatalLevel : Level := 1
/-- Go `logrus.ErrorLevel`. -/
def ErrorLevel : Level := 2
/-- Go `logrus.WarnLevel`. -/
def WarnLevel : Level := 3
/-- Go `logrus.InfoLevel`. -/
def InfoLevel : Level := 4
/-- Go `logrus.DebugLevel`. -/
def DebugLevel : Level := 5
/-- Go `logrus.TraceLevel`. -/
def TraceLevel : Level := 6

/-- A line handed to the logger's output: its level and its formatted message. -/
structure Line where
  level : Level
  msg : List UInt8

/-- Go `logrus.Debugf` on the standard logger whose level is `current`: the message is
logged at debug level when `current >= DebugLevel` (`IsLevelEnabled`), else dropped. -/
def Debugf (current : Level) (msg : List UInt8) : List Line :=
  if current ≥ DebugLevel then [{ level := DebugLevel, msg := msg }] else []

end logrus

namespace logwriter

/-- Go `type LogWriter struct { Message string }`; a Go string is a sequence of bytes. -/
structure LogWriter where
  Message : List UInt8

/-- What a call of `Write` produces: the lines logged and the two results. -/
structure WriteResult where
  logged : List logrus.Line
  n : Int
  err : error

/-- Go `(l LogWriter) Write(p []byte) (n int, err error)`, with the level
`log.GetLevel()` reports as input.  The format `"%s: %s"` puts the two bytes `": "`
(58, 32) between `l.Message` and `string(p)`. -/
def LogWriter.Write (l : LogWriter) (level : logrus.Level) (p : List UInt8) : WriteResult :=
  if level = logrus.TraceLevel ∨ level = logrus.DebugLevel then
    { logged := logrus.Debugf level (l.Message ++ [58, 32] ++ p),
      n := (p.length : Int), err := none }
  else
    { logged := [], n := 0, err := none }

end logwriter

/-! ## Example values -/

namespace sample

/-- An error a listener may report. -/
def E0 : GoError := GoError.base 100

/-- The error of shutdown function `fA`. -/
def E1 : GoError := GoError.base 101

/-- The error of shutdown function `fC`. -/
def E2 : GoError := GoError.base 102

/-- A shutdown function that always fails with `E1`. -/
def fA : server.ShutdownFunc := { id := 1, call := fun _ => some E1 }

/-- A shutdown function that always succeeds. -/
def fB : server.ShutdownFunc := { id := 2, call := fun _ => none }

/-- A shutdown function that always fails with `E2`. -/
def fC : server.ShutdownFunc := { id := 3, call := fun _ => some E2 }

/-- The context of some caller. -/
def parent : CtxId := CtxId.caller 0

/-- Some router. -/
def router : Router := { id := 0 }

/-- A world in which an interrupt arrives and `Shutdown` succeeds. -/
def interrupted : server.World := { select := .ctxDone, shutdownResult := none }

/-- A world in which an interrupt arrives and `Shutdown` fails with `E0`. -/
def interruptedShutdownFails : server.World :=
  { select := .ctxDone, shutdownResult := some E0 }

/-- A world in which the listener fails with `E0` before any interrupt. -/
def listenerFails : server.World :=
  { select := .srvErr (some E0) false, shutdownResult := none }

end sample

/-! ## Lemmas on errors -/

mutual
theorem GoError.same_self : ∀ e : GoError, GoError.same e e = true
  | .base a => by simp [GoError.same]
  | .joinError es => by
      rw [GoError.same]
      exact GoError.sameList_self es
theorem GoError.sameList_self : ∀ es : List GoError, GoError.sameList es es = true
  | [] => by simp [GoError.sameList]
  | e :: es => by
      rw [GoError.sameList, GoError.same_self e, GoError.sameList_self es]
      rfl
end

theorem errors.isTree_self (e : GoError) : errors.isTree e e = true := by
  cases e with
  | base a => rw [errors.isTree]; exact GoError.same_self _
  | joinError es => rw [errors.isTree, GoError.same_self]; rfl

theorem errors.Is_self (e : GoError) : errors.Is (some e) (some e) = true := by
  rw [errors.Is]; exact errors.isTree_self e

theorem errors.Join_nil_some (e : GoError) :
    errors.Join [none, some e] = some (GoError.joinError [e]) := by
  simp [errors.Join]

theorem errors.Is_Join_nil_some (e : GoError) :
    errors.Is (errors.Join [none, some e]) (some e) = true := by
  rw [errors.Join_nil_some, errors.Is, errors.isTree, errors.isAny, errors.isTree_self]
  simp

/-! ## Lemmas on traces -/

namespace server

theorem calls_append (a b : List Event) : calls (a ++ b) = calls a ++ calls b := by
  induction a with
  | nil => rfl
  | cons x xs ih => cases x <;> simp [calls, ih]

theorem shutdownContexts_append (a b : List Event) :
    shutdownContexts (a ++ b) = shutdownContexts a ++ shutdownContexts b := by
  induction a with
  | nil => rfl
  | cons x xs ih => cases x <;> simp [shutdownContexts, ih]

theorem stops_append (a b : List Event) : stops (a ++ b) = stops a ++ stops b := by
  induction a with
  | nil => rfl
  | cons x xs ih => cases x <;> simp [stops, ih]

theorem calls_shutdownEvents (ctx : Context) (fs : List ShutdownFunc) :
    calls (shutdownEvents ctx fs) = fs.map ShutdownFunc.id := by
  induction fs with
  | nil => rfl
  | cons f fs ih =>
    rw [shutdownEvents]
    cases f.call ctx <;> simp [calls, ih]

theorem shutdownContexts_shutdownEvents (ctx : Context) (fs : List ShutdownFunc) :
    shutdownContexts (shutdownEvents ctx fs) = [] := by
  induction fs with
  | nil => rfl
  | cons f fs ih =>
    rw [shutdownEvents]
    cases f.call ctx <;> simp [shutdownContexts, ih]

theorem stops_shutdownEvents (ctx : Context) (fs : List ShutdownFunc) :
    stops (shutdownEvents ctx fs) = [] := by
  induction fs with
  | nil => rfl
  | cons f fs ih =>
    rw [shutdownEvents]
    cases f.call ctx <;> simp [stops, ih]

theorem lifecycle_append (a b : List Event) :
    lifecycle (a ++ b) = lifecycle a ++ lifecycle b := by
  induction a with
  | nil => rfl
  | cons x xs ih => cases x <;> simp [lifecycle, ih]

theorem lifecycle_shutdownEvents (ctx : Context) (fs : List ShutdownFunc) :
    lifecycle (shutdownEvents ctx fs) = fs.map (fun f => Event.call f.id ctx) := by
  induction fs with
  | nil => rfl
  | cons f fs ih =>
    rw [shutdownEvents]
    cases f.call ctx <;> simp [lifecycle, ih]

theorem shutdownStep_spec (c : CtxId) (s : Frame) (f : ShutdownFunc) :
    (shutdownStep c s f).trace
        = s.trace ++ shutdownEvents { id := c, done := s.ctxDone } [f]
      ∧ (shutdownStep c s f).ctxDone = s.ctxDone
      ∧ (shutdownStep c s f).subscribed = s.subscribed := by
  unfold shutdownStep
  simp only [shutdownEvents]
  cases f.call { id := c, done := s.ctxDone } <;> simp

theorem shutdownEvents_cons (ctx : Context) (f : ShutdownFunc) (fs : List ShutdownFunc) :
    shutdownEvents ctx (f :: fs) = shutdownEvents ctx [f] ++ shutdownEvents ctx fs := by
  simp only [shutdownEvents]
  cases f.call ctx <;> simp

/-- The loop over the shutdown functions appends `shutdownEvents` to the trace and leaves
the context and the subscription as they are. -/
theorem foldl_shutdownStep (c : CtxId) (fs : List ShutdownFunc) (s : Frame) :
    (fs.foldl (shutdownStep c) s).trace
        = s.trace ++ shutdownEvents { id := c, done := s.ctxDone } fs
      ∧ (fs.foldl (shutdownStep c) s).ctxDone = s.ctxDone
      ∧ (fs.foldl (shutdownStep c) s).subscribed = s.subscribed := by
  induction fs generalizing s with
  | nil => simp [shutdownEvents]
  | cons f fs ih =>
    obtain ⟨h1, h2, h3⟩ := ih (shutdownStep c s f)
    obtain ⟨g1, g2, g3⟩ := shutdownStep_spec c s f
    rw [List.foldl_cons, h1, h2, h3, g1, g2, g3, shutdownEvents_cons _ f fs,
      List.append_assoc]
    exact ⟨rfl, rfl, rfl⟩

theorem deferredShutdownFuncs_spec (config : serverConfig) (c : CtxId) (s : Frame) :
    (deferredShutdownFuncs config c s).trace
        = s.trace ++ shutdownEvents { id := c, done := s.ctxDone } (registered config)
      ∧ (deferredShutdownFuncs config c s).ctxDone = s.ctxDone
      ∧ (deferredShutdownFuncs config c s).subscribed = s.subscribed := by
  unfold deferredShutdownFuncs registered
  cases config.shutdownFunc with
  | none => simp [shutdownEvents]
  | some fs => exact foldl_shutdownStep c fs s

/-- The deferred calls append the events of the shutdown functions, then one `stop`. -/
theorem stop_deferred_trace (config : serverConfig) (c : CtxId) (s : Frame) :
    (stop (deferredShutdownFuncs config c s)).trace
      = s.trace ++ shutdownEvents { id := c, done := s.ctxDone } (registered config)
          ++ [Event.stop s.subscribed] := by
  obtain ⟨h1, -, h3⟩ := deferredShutdownFuncs_spec config c s
  simp only [stop, h1, h3]

theorem body_srvErr (ctx : CtxId) (r : Router) (config : serverConfig) (w : World)
    (e : error) (d : Bool) (h : w.select = .srvErr e d) :
    body ctx r config w =
      (e, CtxId.notify ctx,
        { errs := e, ctxDone := d, subscribed := true,
          trace := startEvents ctx r config }) := by
  unfold body
  simp [h, startEvents]

theorem body_ctxDone (ctx : CtxId) (r : Router) (config : serverConfig) (w : World)
    (h : w.select = .ctxDone) :
    ∃ errs : error, body ctx r config w =
      (errs, CtxId.notify ctx,
        { errs := errs, ctxDone := true, subscribed := false,
          trace := startEvents ctx r config
            ++ [Event.stop true, Event.shutdown { id := CtxId.notify ctx, done := true }] }) := by
  unfold body
  cases hs : w.shutdownResult <;> simp [h, hs, stop, startEvents]

/-- The value `StartServer` returns depends on the world only: it is what the listener
sent, or the join of nil and what `Shutdown` returned. -/
theorem StartServer_ret (ctx : CtxId) (r : Router) (opts : List server.Option) (w : World) :
    (StartServer ctx r opts w).ret =
      match w.select with
      | .srvErr e _ => e
      | .ctxDone =>
        match w.shutdownResult with
        | some e => errors.Join [none, some e]
        | none => none := by
  unfold StartServer body
  cases w.select with
  | srvErr e d => rfl
  | ctxDone => cases w.shutdownResult <;> rfl

/-- The trace of a call in which the listener's result arrives first. -/
theorem StartServer_trace_srvErr (ctx : CtxId) (r : Router) (opts : List server.Option)
    (w : World) (e : error) (d : Bool) (h : w.select = .srvErr e d) :
    (StartServer ctx r opts w).trace =
      startEvents ctx r (applyOptions opts)
        ++ shutdownEvents { id := CtxId.notify ctx, done := d } (registered (applyOptions opts))
        ++ [Event.stop true] := by
  unfold StartServer
  simp only [body_srvErr ctx r _ w e d h]
  exact stop_deferred_trace _ _ _

/-- The trace of a call in which the signal context is done first. -/
theorem StartServer_trace_ctxDone (ctx : CtxId) (r : Router) (opts : List server.Option)
    (w : World) (h : w.select = .ctxDone) :
    (StartServer ctx r opts w).trace =
      startEvents ctx r (applyOptions opts)
        ++ [Event.stop true, Event.shutdown { id := CtxId.notify ctx, done := true }]
        ++ shutdownEvents { id := CtxId.notify ctx, done := true }
            (registered (applyOptions opts))
        ++ [Event.stop false] := by
  unfold StartServer
  obtain ⟨errs, hb⟩ := body_ctxDone ctx r (applyOptions opts) w h
  simp only [hb]
  exact stop_deferred_trace _ _ _

end server

/-! ## The claims: StartServer -/

namespace server

theorem calls_trace (ctx : CtxId) (r : Router) (opts : List server.Option) (w : World) :
    calls (StartServer ctx r opts w).trace
      = (registered (applyOptions opts)).map ShutdownFunc.id := by
  cases h : w.select with
  | srvErr e d =>
    rw [StartServer_trace_srvErr ctx r opts w e d h]
    simp [calls_append, calls_shutdownEvents, startEvents, calls]
  | ctxDone =>
    rw [StartServer_trace_ctxDone ctx r opts w h]
    simp [calls_append, calls_shutdownEvents, startEvents, calls]

/-- C1 (code bug).  An interrupt arrives, `Shutdown` succeeds, and the shutdown functions
are `[fA, fB, fC]`, where `fA` fails with `E1`, `fB` succeeds and `fC` fails with `E2`.
All three are called and the local variable `errs` ends up containing `E1` and `E2`, but
the value `StartServer` returns is nil: it contains neither.  When the listener fails
with `E0` instead, the returned value is `E0` alone, again without `E1` and `E2`. -/
theorem C1_callback_errors_missing_from_result :
    (StartServer sample.parent sample.router
        [SetShutdownFuncs (some [sample.fA, sample.fB, sample.fC])]
        sample.interrupted).ret = none
    ∧ calls (StartServer sample.parent sample.router
        [SetShutdownFuncs (some [sample.fA, sample.fB, sample.fC])]
        sample.interrupted).trace = [1, 2, 3]
    ∧ errors.Is (StartServer sample.parent sample.router
        [SetShutdownFuncs (some [sample.fA, sample.fB, sample.fC])]
        sample.interrupted).errs (some sample.E1) = true
    ∧ errors.Is (StartServer sample.parent sample.router
        [SetShutdownFuncs (some [sample.fA, sample.fB, sample.fC])]
        sample.interrupted).errs (some sample.E2) = true
    ∧ errors.Is (StartServer sample.parent sample.router
        [SetShutdownFuncs (some [sample.fA, sample.fB, sample.fC])]
        sample.interrupted).ret (some sample.E1) = false
    ∧ (StartServer sample.parent sample.router
        [SetShutdownFuncs (some [sample.fA, sample.fB, sample.fC])]
        sample.listenerFails).ret = some sample.E0
    ∧ errors.Is (StartServer sample.parent sample.router
        [SetShutdownFuncs (some [sample.fA, sample.fB, sample.fC])]
        sample.listenerFails).ret (some sample.E1) = false
    ∧ errors.Is (StartServer sample.parent sample.router
        [SetShutdownFuncs (some [sample.fA, sample.fB, sample.fC])]
        sample.listenerFails).ret (some sample.E2) = false := by
  refine ⟨rfl, rfl, ?_, ?_, rfl, rfl, ?_, ?_⟩ <;> decide

/-- C2.  When the listener's result `e`, a non-nil error, is what the `select` receives,
`StartServer` returns exactly `e` (so a non-nil error that contains `e`), no `Shutdown`
is requested, only the one deferred `stop` is called, and every registered shutdown
function has been called when `StartServer` returns. -/
theorem C2_listener_failure (ctx : CtxId) (r : Router) (opts : List server.Option)
    (w : World) (e : GoError) (d : Bool) (h : w.select = .srvErr (some e) d) :
    (StartServer ctx r opts w).ret = some e
    ∧ (StartServer ctx r opts w).ret ≠ none
    ∧ errors.Is (StartServer ctx r opts w).ret (some e) = true
    ∧ shutdownContexts (StartServer ctx r opts w).trace = []
    ∧ ∀ f ∈ registered (applyOptions opts), f.id ∈ calls (StartServer ctx r opts w).trace := by
  have hret : (StartServer ctx r opts w).ret = some e := by
    rw [StartServer_ret, h]
  refine ⟨hret, ?_, ?_, ?_, ?_⟩
  · rw [hret]; exact Option.some_ne_none e
  · rw [hret]; exact errors.Is_self e
  · rw [StartServer_trace_srvErr ctx r opts w (some e) d h]
    simp [shutdownContexts_append, shutdownContexts_shutdownEvents, startEvents,
      shutdownContexts]
  · intro f hf
    rw [calls_trace]
    exact List.mem_map_of_mem _ hf

/-- C2 at a concrete call: the listener fails with `E0`, three shutdown functions are
registered. -/
theorem C2_listener_failure_witness :
    (StartServer sample.parent sample.router
        [SetShutdownFuncs (some [sample.fA, sample.fB, sample.fC])]
        sample.listenerFails).ret = some sample.E0
    ∧ ∀ f ∈ registered (applyOptions [SetShutdownFuncs (some [sample.fA, sample.fB, sample.fC])]),
        f.id ∈ calls (StartServer sample.parent sample.router
          [SetShutdownFuncs (some [sample.fA, sample.fB, sample.fC])]
          sample.listenerFails).trace :=
  ⟨(C2_listener_failure sample.parent sample.router _ sample.listenerFails
      sample.E0 false rfl).1,
   (C2_listener_failure sample.parent sample.router _ sample.listenerFails
      sample.E0 false rfl).2.2.2.2⟩

/-- C3.  On either exit path the shutdown functions called are exactly the registered
ones, each once, in registration order, whatever each of them returns. -/
theorem C3_cleanup_order (ctx : CtxId) (r : Router) (opts : List server.Option)
    (w : World) :
    calls (StartServer ctx r opts w).trace
      = (registered (applyOptions opts)).map ShutdownFunc.id :=
  calls_trace ctx r opts w

/-- C4.  When the signal context is done first: `StartServer` returns nil if `Shutdown`
returns nil and no shutdown function returns an error; and if `Shutdown` returns an
error `e`, the returned error is non-nil and contains `e`. -/
theorem C4_interrupt_path (ctx : CtxId) (r : Router) (opts : List server.Option)
    (w : World) (h : w.select = .ctxDone) :
    (w.shutdownResult = none →
        (∀ f ∈ registered (applyOptions opts), ∀ c, f.call c = none) →
        (StartServer ctx r opts w).ret = none)
    ∧ (∀ e, w.shutdownResult = some e →
        (StartServer ctx r opts w).ret ≠ none
        ∧ errors.Is (StartServer ctx r opts w).ret (some e) = true) := by
  constructor
  · intro hs _
    rw [StartServer_ret, h, hs]
  · intro e hs
    have hret : (StartServer ctx r opts w).ret = errors.Join [none, some e] := by
      rw [StartServer_ret, h, hs]
    rw [hret]
    exact ⟨by rw [errors.Join_nil_some]; exact Option.some_ne_none _,
      errors.Is_Join_nil_some e⟩

/-- C4 at two concrete calls: an interrupt with a successful `Shutdown` and a shutdown
function that succeeds, and an interrupt with a `Shutdown` that fails with `E0`. -/
theorem C4_interrupt_path_witness :
    (StartServer sample.parent sample.router [SetShutdownFuncs (some [sample.fB])]
        sample.interrupted).ret = none
    ∧ errors.Is (StartServer sample.parent sample.router []
        sample.interruptedShutdownFails).ret (some sample.E0) = true :=
  ⟨(C4_interrupt_path sample.parent sample.router _ sample.interrupted rfl).1 rfl
      (by
        intro f hf c
        have hf2 : f = sample.fB := by
          simpa [registered, applyOptions, SetShutdownFuncs] using hf
        rw [hf2]; rfl),
   ((C4_interrupt_path sample.parent sample.router [] sample.interruptedShutdownFails
      rfl).2 sample.E0 rfl).2⟩

/-- C5, as stated, fails.  The listener fails with `E0` and one shutdown function, `fB`,
is registered: the trace is subscription, log line, listener start, the call of `fB`, and
only then `stop`.  No `stop` comes before the call of the shutdown function. -/
theorem C5_counterexample :
    calls (StartServer sample.parent sample.router [SetShutdownFuncs (some [sample.fB])]
        sample.listenerFails).trace = [2]
    ∧ stops (StartServer sample.parent sample.router [SetShutdownFuncs (some [sample.fB])]
        sample.listenerFails).trace = [true]
    ∧ stopBeforeFirstCall (StartServer sample.parent sample.router
        [SetShutdownFuncs (some [sample.fB])] sample.listenerFails).trace = false :=
  ⟨rfl, rfl, rfl⟩

/-- C5, amended.  When the signal context is done first, `stop` is called before the
first shutdown function.  When the listener's result arrives first, the trace ends with
the one call of `stop`, which releases the subscription: no `stop` comes before it and
every registered shutdown function has been called before it. -/
theorem C5_release_order (ctx : CtxId) (r : Router) (opts : List server.Option)
    (w : World) :
    (w.select = .ctxDone → stopBeforeFirstCall (StartServer ctx r opts w).trace = true)
    ∧ (∀ e d, w.select = .srvErr e d →
        ∃ before, (StartServer ctx r opts w).trace = before ++ [Event.stop true]
          ∧ stops before = []
          ∧ calls before = (registered (applyOptions opts)).map ShutdownFunc.id) := by
  constructor
  · intro h
    rw [StartServer_trace_ctxDone ctx r opts w h]
    simp [startEvents, stopBeforeFirstCall]
  · intro e d h
    refine ⟨_, StartServer_trace_srvErr ctx r opts w e d h, ?_, ?_⟩
    · simp [stops_append, stops_shutdownEvents, startEvents, stops]
    · simp [calls_append, calls_shutdownEvents, startEvents, calls]

/-- C5, amended, at two concrete calls with shutdown functions `fA` and `fB`: one
interrupted, one whose listener fails. -/
theorem C5_release_order_witness :
    stopBeforeFirstCall (StartServer sample.parent sample.router
        [SetShutdownFuncs (some [sample.fA, sample.fB])] sample.interrupted).trace = true
    ∧ ∃ before, (StartServer sample.parent sample.router
          [SetShutdownFuncs (some [sample.fA, sample.fB])] sample.listenerFails).trace
            = before ++ [Event.stop true]
        ∧ stops before = []
        ∧ calls before
            = (registered (applyOptions [SetShutdownFuncs (some [sample.fA, sample.fB])])).map
                ShutdownFunc.id :=
  ⟨(C5_release_order sample.parent sample.router _ sample.interrupted).1 rfl,
   (C5_release_order sample.parent sample.router _ sample.listenerFails).2
      (some sample.E0) false rfl⟩

/-- C6, as stated, fails.  An interrupt arrives and `Shutdown` succeeds, with no options:
`stop` is called twice, first by the explicit call (which releases the subscription),
then by the deferred call (which finds nothing to release). -/
theorem C6_counterexample :
    stops (StartServer sample.parent sample.router [] sample.interrupted).trace
      = [true, false]
    ∧ (stops (StartServer sample.parent sample.router [] sample.interrupted).trace).length
      ≠ 1 :=
  ⟨rfl, by decide⟩

/-- C6, amended.  When the listener's result arrives first, `stop` is called exactly once
and `Shutdown` is not requested: the shutdown functions are called in registration order
and the one call of `stop`, which releases the subscription, comes after them.  When the
signal context is done first, `stop` is called exactly twice and `Shutdown` is requested
exactly once, in this order: the explicit call of `stop`, which releases the
subscription; the request of `Shutdown`; the shutdown functions in registration order;
the deferred call of `stop`, which finds the subscription released.  On both paths
exactly one call of `stop` releases the subscription. -/
theorem C6_stop_and_shutdown_counts (ctx : CtxId) (r : Router) (opts : List server.Option)
    (w : World) :
    (∀ e d, w.select = .srvErr e d →
        stops (StartServer ctx r opts w).trace = [true]
        ∧ shutdownContexts (StartServer ctx r opts w).trace = []
        ∧ lifecycle (StartServer ctx r opts w).trace
            = (registered (applyOptions opts)).map
                (fun f => Event.call f.id { id := CtxId.notify ctx, done := d })
              ++ [Event.stop true])
    ∧ (w.select = .ctxDone →
        stops (StartServer ctx r opts w).trace = [true, false]
        ∧ (shutdownContexts (StartServer ctx r opts w).trace).length = 1
        ∧ lifecycle (StartServer ctx r opts w).trace
            = [Event.stop true, Event.shutdown { id := CtxId.notify ctx, done := true }]
              ++ (registered (applyOptions opts)).map
                (fun f => Event.call f.id { id := CtxId.notify ctx, done := true })
              ++ [Event.stop false])
    ∧ ((stops (StartServer ctx r opts w).trace).filter (fun released => released)).length
        = 1 := by
  refine ⟨?_, ?_, ?_⟩
  · intro e d h
    rw [StartServer_trace_srvErr ctx r opts w e d h]
    refine ⟨?_, ?_, ?_⟩
    · simp [stops_append, stops_shutdownEvents, startEvents, stops]
    · simp [shutdownContexts_append, shutdownContexts_shutdownEvents, startEvents,
        shutdownContexts]
    · simp [lifecycle_append, lifecycle_shutdownEvents, startEvents, lifecycle]
  · intro h
    rw [StartServer_trace_ctxDone ctx r opts w h]
    refine ⟨?_, ?_, ?_⟩
    · simp [stops_append, stops_shutdownEvents, startEvents, stops]
    · simp [shutdownContexts_append, shutdownContexts_shutdownEvents, startEvents,
        shutdownContexts]
    · simp [lifecycle_append, lifecycle_shutdownEvents, startEvents, lifecycle]
  · cases h : w.select with
    | srvErr e d =>
      rw [StartServer_trace_srvErr ctx r opts w e d h]
      simp [stops_append, stops_shutdownEvents, startEvents, stops]
    | ctxDone =>
      rw [StartServer_trace_ctxDone ctx r opts w h]
      simp [stops_append, stops_shutdownEvents, startEvents, stops]

/-- C6, amended, at two concrete calls with shutdown function `fA`: one whose listener
fails, one interrupted. -/
theorem C6_stop_and_shutdown_counts_witness :
    (stops (StartServer sample.parent sample.router
        [SetShutdownFuncs (some [sample.fA])] sample.listenerFails).trace = [true]
      ∧ shutdownContexts (StartServer sample.parent sample.router
        [SetShutdownFuncs (some [sample.fA])] sample.listenerFails).trace = []
      ∧ lifecycle (StartServer sample.parent sample.router
        [SetShutdownFuncs (some [sample.fA])] sample.listenerFails).trace
          = [Event.call 1 { id := CtxId.notify sample.parent, done := false },
             Event.stop true])
    ∧ (stops (StartServer sample.parent sample.router
        [SetShutdownFuncs (some [sample.fA])] sample.interrupted).trace = [true, false]
      ∧ (shutdownContexts (StartServer sample.parent sample.router
        [SetShutdownFuncs (some [sample.fA])] sample.interrupted).trace).length = 1
      ∧ lifecycle (StartServer sample.parent sample.router
        [SetShutdownFuncs (some [sample.fA])] sample.interrupted).trace
          = [Event.stop true,
             Event.shutdown { id := CtxId.notify sample.parent, done := true },
             Event.call 1 { id := CtxId.notify sample.parent, done := true },
             Event.stop false]) :=
  ⟨(C6_stop_and_shutdown_counts sample.parent sample.router _ sample.listenerFails).1
      (some sample.E0) false rfl,
   (C6_stop_and_shutdown_counts sample.parent sample.router _ sample.interrupted).2.1 rfl⟩

end server

/-! ## The claims: options and defaults -/

namespace OptionCall

theorem getLast_cons_getD {α : Type} (a d : α) (l : List α) :
    (a :: l).getLast?.getD d = l.getLast?.getD a := by
  cases l with
  | nil => rfl
  | cons b t =>
    rw [List.getLast?_cons_cons, List.getLast?_eq_getLast (b :: t) (List.cons_ne_nil b t)]
    rfl

theorem foldl_port (cs : List OptionCall) (c : server.serverConfig) :
    ((cs.map option).foldl (fun config opt => opt config) c).port
      = ((cs.filterMap portArg).getLast?).getD c.port := by
  induction cs generalizing c with
  | nil => rfl
  | cons o cs ih =>
    rw [List.map_cons, List.foldl_cons, ih]
    cases o <;>
      simp [portArg, option, server.SetPort, server.SetReadTimeout, server.SetWriteTimeout,
        server.SetShutdownFuncs, getLast_cons_getD]

theorem foldl_readTimeout (cs : List OptionCall) (c : server.serverConfig) :
    ((cs.map option).foldl (fun config opt => opt config) c).readTimeout
      = ((cs.filterMap readTimeoutArg).getLast?).getD c.readTimeout := by
  induction cs generalizing c with
  | nil => rfl
  | cons o cs ih =>
    rw [List.map_cons, List.foldl_cons, ih]
    cases o <;>
      simp [readTimeoutArg, option, server.SetPort, server.SetReadTimeout,
        server.SetWriteTimeout, server.SetShutdownFuncs, getLast_cons_getD]

theorem foldl_writeTimeout (cs : List OptionCall) (c : server.serverConfig) :
    ((cs.map option).foldl (fun config opt => opt config) c).writeTimeout
      = ((cs.filterMap writeTimeoutArg).getLast?).getD c.writeTimeout := by
  induction cs generalizing c with
  | nil => rfl
  | cons o cs ih =>
    rw [List.map_cons, List.foldl_cons, ih]
    cases o <;>
      simp [writeTimeoutArg, option, server.SetPort, server.SetReadTimeout,
        server.SetWriteTimeout, server.SetShutdownFuncs, getLast_cons_getD]

theorem foldl_shutdownFunc (cs : List OptionCall) (c : server.serverConfig) :
    ((cs.map option).foldl (fun config opt => opt config) c).shutdownFunc
      = ((cs.filterMap shutdownFuncsArg).getLast?).getD c.shutdownFunc := by
  induction cs generalizing c with
  | nil => rfl
  | cons o cs ih =>
    rw [List.map_cons, List.foldl_cons, ih]
    cases o <;>
      simp [shutdownFuncsArg, option, server.SetPort, server.SetReadTimeout,
        server.SetWriteTimeout, server.SetShutdownFuncs, getLast_cons_getD]

theorem filterMap_eq_nil_of_forall {α : Type} (g : OptionCall → Option α)
    (cs : List OptionCall) (h : ∀ c ∈ cs, g c = none) : cs.filterMap g = [] := by
  induction cs with
  | nil => rfl
  | cons o cs ih =>
    have ho : g o = none := h o (List.mem_cons_self o cs)
    rw [List.filterMap_cons, ho]
    exact ih (fun c hc => h c (List.mem_cons_of_mem o hc))

/-- C7.  For every sequence of option calls applied in order to the defaults, each field
of the final configuration is the argument of the last call in the sequence that sets
that field; for the shutdown functions the slice of the last call replaces any earlier
one. -/
theorem C7_last_write_wins (cs : List OptionCall) :
    (∀ port, (cs.filterMap portArg).getLast? = some port →
        (server.applyOptions (cs.map option)).port = port)
    ∧ (∀ timeout, (cs.filterMap readTimeoutArg).getLast? = some timeout →
        (server.applyOptions (cs.map option)).readTimeout = timeout)
    ∧ (∀ timeout, (cs.filterMap writeTimeoutArg).getLast? = some timeout →
        (server.applyOptions (cs.map option)).writeTimeout = timeout)
    ∧ (∀ fns, (cs.filterMap shutdownFuncsArg).getLast? = some fns →
        (server.applyOptions (cs.map option)).shutdownFunc = fns) := by
  unfold server.applyOptions
  refine ⟨?_, ?_, ?_, ?_⟩
  · intro v h; rw [foldl_port, h]; rfl
  · intro v h; rw [foldl_readTimeout, h]; rfl
  · intro v h; rw [foldl_writeTimeout, h]; rfl
  · intro v h; rw [foldl_shutdownFunc, h]; rfl

/-- C7 at two concrete sequences: the port set twice, and the shutdown functions set
twice with another option in between. -/
theorem C7_last_write_wins_witness :
    (server.applyOptions [server.SetPort "9090", server.SetPort "9091"]).port = "9091"
    ∧ (server.applyOptions
        [server.SetShutdownFuncs (some [sample.fA, sample.fB]),
         server.SetReadTimeout 5,
         server.SetShutdownFuncs (some [sample.fC])]).shutdownFunc = some [sample.fC] :=
  ⟨(C7_last_write_wins [SetPort "9090", SetPort "9091"]).1 "9091" rfl,
   (C7_last_write_wins
      [SetShutdownFuncs (some [sample.fA, sample.fB]), SetReadTimeout 5,
       SetShutdownFuncs (some [sample.fC])]).2.2.2 (some [sample.fC]) rfl⟩

/-- C8.  With no options the configuration is port "8080", read and write timeout 30
seconds (30000000000 nanoseconds) and no shutdown functions, and that is what
`StartServer` starts the listener with.  For every sequence of option calls, a field that
no call in the sequence sets keeps that default. -/
theorem C8_defaults :
    server.applyOptions [] =
      { port := "8080", readTimeout := 30000000000, writeTimeout := 30000000000,
        shutdownFunc := none }
    ∧ (∀ ctx r w,
        (server.StartServer ctx r [] w).trace.take 3 =
          [server.Event.notifyContext ctx,
           server.Event.infof "starting http server on port :8080",
           server.Event.listenAndServe
             { Addr := ":8080", Handler := r, ReadTimeout := 30000000000,
               WriteTimeout := 30000000000 }]
        ∧ server.calls (server.StartServer ctx r [] w).trace = [])
    ∧ ∀ cs : List OptionCall,
        ((∀ c ∈ cs, portArg c = none) →
            (server.applyOptions (cs.map option)).port = "8080")
        ∧ ((∀ c ∈ cs, readTimeoutArg c = none) →
            (server.applyOptions (cs.map option)).readTimeout = 30000000000)
        ∧ ((∀ c ∈ cs, writeTimeoutArg c = none) →
            (server.applyOptions (cs.map option)).writeTimeout = 30000000000)
        ∧ ((∀ c ∈ cs, shutdownFuncsArg c = none) →
            (server.applyOptions (cs.map option)).shutdownFunc = none) := by
  refine ⟨rfl, ?_, ?_⟩
  · intro ctx r w
    refine ⟨?_, ?_⟩
    · cases h : w.select with
      | srvErr e d =>
        rw [server.StartServer_trace_srvErr ctx r [] w e d h]; rfl
      | ctxDone =>
        rw [server.StartServer_trace_ctxDone ctx r [] w h]; rfl
    · rw [server.calls_trace]; rfl
  · intro cs
    unfold server.applyOptions
    refine ⟨?_, ?_, ?_, ?_⟩
    · intro h; rw [foldl_port, filterMap_eq_nil_of_forall _ _ h]; rfl
    · intro h; rw [foldl_readTimeout, filterMap_eq_nil_of_forall _ _ h]; rfl
    · intro h; rw [foldl_writeTimeout, filterMap_eq_nil_of_forall _ _ h]; rfl
    · intro h; rw [foldl_shutdownFunc, filterMap_eq_nil_of_forall _ _ h]; rfl

/-- C8 at two concrete sequences: one that sets no read timeout, one that sets no port.
-/
theorem C8_defaults_witness :
    (server.applyOptions [server.SetPort "9090", server.SetShutdownFuncs (some [sample.fA])]
      ).readTimeout = 30000000000
    ∧ (server.applyOptions [server.SetReadTimeout 5, server.SetWriteTimeout 7]).port
      = "8080" :=
  ⟨(C8_defaults.2.2 [SetPort "9090", SetShutdownFuncs (some [sample.fA])]).2.1
      (by intro c hc; simp at hc; rcases hc with rfl | rfl <;> rfl),
   (C8_defaults.2.2 [SetReadTimeout 5, SetWriteTimeout 7]).1
      (by intro c hc; simp at hc; rcases hc with rfl | rfl <;> rfl)⟩

end OptionCall

/-! ## The claims: LogWriter -/

namespace logwriter

/-- C9.  For every writer, level and byte slice `Write` returns a nil error.  At trace or
debug level it logs exactly one line, at debug level, made of the writer's `Message`,
the two bytes `": "` and the bytes of `p`, and returns `len(p)`; at every other level it
logs nothing and returns 0. -/
theorem C9_Write (l : LogWriter) (level : logrus.Level) (p : List UInt8) :
    (l.Write level p).err = none
    ∧ (level = logrus.TraceLevel ∨ level = logrus.DebugLevel →
        (l.Write level p).logged
            = [{ level := logrus.DebugLevel, msg := l.Message ++ [58, 32] ++ p }]
        ∧ (l.Write level p).n = (p.length : Int))
    ∧ (¬ (level = logrus.TraceLevel ∨ level = logrus.DebugLevel) →
        (l.Write level p).logged = [] ∧ (l.Write level p).n = 0) := by
  unfold LogWriter.Write
  refine ⟨?_, ?_, ?_⟩
  · split <;> rfl
  · intro h
    rw [if_pos h]
    refine ⟨?_, rfl⟩
    rcases h with h | h <;> subst h <;> rfl
  · intro h
    rw [if_neg h]
    exact ⟨rfl, rfl⟩

/-- C9 at two concrete calls of a writer labelled `AB` with the bytes 1, 2, 3: at trace
level and at info level. -/
theorem C9_Write_witness :
    ((LogWriter.mk [65, 66]).Write logrus.TraceLevel [1, 2, 3]).logged
        = [{ level := logrus.DebugLevel, msg := [65, 66, 58, 32, 1, 2, 3] }]
    ∧ ((LogWriter.mk [65, 66]).Write logrus.TraceLevel [1, 2, 3]).n = 3
    ∧ ((LogWriter.mk [65, 66]).Write logrus.InfoLevel [1, 2, 3]).logged = []
    ∧ ((LogWriter.mk [65, 66]).Write logrus.InfoLevel [1, 2, 3]).n = 0 :=
  ⟨((C9_Write (LogWriter.mk [65, 66]) logrus.TraceLevel [1, 2, 3]).2.1 (Or.inl rfl)).1,
   ((C9_Write (LogWriter.mk [65, 66]) logrus.TraceLevel [1, 2, 3]).2.1 (Or.inl rfl)).2,
   ((C9_Write (LogWriter.mk [65, 66]) logrus.InfoLevel [1, 2, 3]).2.2 (by decide)).1,
   ((C9_Write (LogWriter.mk [65, 66]) logrus.InfoLevel [1, 2, 3]).2.2 (by decide)).2⟩

end logwriter
